import Mathlib

/-!
Shallow embedding of the StarSmileBot repository (a Telegram ↔ Pyrus CRM
bridge) and proofs about it.  Each definition is translated from the Python
source file named in its doc comment.
-/

namespace StarSmile

/-! ### Webhook ingestion queue — `server/main.py`

`webhook_queue = asyncio.Queue(maxsize=500)` and the endpoint does
`await webhook_queue.put(...)`.  `asyncio.Queue.put` on a full queue suspends
the caller until a slot frees; it neither raises nor drops.  We model the
outcome of the `put` call as a function of the number of already-pending
events. -/

/-- Outcome of attempting to enqueue a webhook event.  `saturationError`
is the outcome the spec asks for on a full queue; the code never produces
it. -/
inductive QueuePutResult where
  | enqueued
  | blocked
  | saturationError
  deriving DecidableEq, Repr

/-- Capacity of `webhook_queue` (`asyncio.Queue(maxsize=500)`, server/main.py). -/
def webhookQueueMaxsize : Nat := 500

/-- Behaviour of `await webhook_queue.put(item)` in `pyrus_webhook`
(server/main.py): if fewer than 500 events are pending the event is appended;
otherwise the coroutine suspends (blocks) until space frees.  No branch
returns an error and no branch drops the event. -/
def queuePut (pending : Nat) : QueuePutResult :=
  if pending < webhookQueueMaxsize then .enqueued else .blocked

/-! ### `build_payload` — `utils.py` -/

/-- The payload built by `build_payload` (utils.py): a channel type,
a text, and optional attachments. -/
structure CommentPayload where
  channelType : String
  text : String
  attachments : Option (List String)
  deriving DecidableEq, Repr

/-- Python truthiness of an optional string: `None` and `""` are falsy. -/
def strTruthy : Option String → Bool
  | none => false
  | some s => s ≠ ""

/-- Python truthiness of an optional list: `None` and `[]` are falsy. -/
def listTruthy : Option (List String) → Bool
  | none => false
  | some l => l ≠ []

/-- `build_payload(text, files)` (utils.py): channel type is always
`"telegram"`; `text` is the given text when truthy, else the placeholder
`"..."`; `attachments` is present exactly when `files` is truthy. -/
def build_payload (text : Option String) (files : Option (List String)) :
    CommentPayload :=
  { channelType := "telegram"
    text := if strTruthy text then text.getD "" else "..."
    attachments := if listTruthy files then files else none }

/-! ### SHA-1, HMAC and `verify_signature` — `server/main.py`

`verify_signature` computes `hmac.new(secret, body, hashlib.sha1).hexdigest()`
and compares it, lowercased, with the lowercased header value.  Bytes are
modelled as `Nat` below 256 and 32-bit words as `Nat` reduced mod `2^32`. -/

/-- Reduction of a `Nat` to a 32-bit word. -/
def m32 (n : Nat) : Nat := n % 4294967296

/-- 32-bit left rotation by `b` of a word `n < 2^32`. -/
def rotl (b n : Nat) : Nat := m32 (n * 2 ^ b) + n / 2 ^ (32 - b)

/-- The SHA-1 round function for round `t`. -/
def sha1F (t b c d : Nat) : Nat :=
  if t < 20 then (b &&& c) ||| ((b ^^^ 4294967295) &&& d)
  else if t < 40 then b ^^^ c ^^^ d
  else if t < 60 then (b &&& c) ||| (b &&& d) ||| (c &&& d)
  else b ^^^ c ^^^ d

/-- The SHA-1 round constant for round `t`. -/
def sha1K (t : Nat) : Nat :=
  if t < 20 then 0x5A827999
  else if t < 40 then 0x6ED9EBA1
  else if t < 60 then 0x8F1BBCDC
  else 0xCA62C1D6

/-- Big-endian packing of bytes into 32-bit words. -/
def bytesToWords : List Nat → List Nat
  | a :: b :: c :: d :: rest =>
      (((a * 256 + b) * 256 + c) * 256 + d) :: bytesToWords rest
  | _ => []

/-- Extend a 16-word block by `k` further schedule words
(`w[i] = rotl 1 (w[i-3] xor w[i-8] xor w[i-14] xor w[i-16])`). -/
def extendWords : Nat → List Nat → List Nat
  | 0, ws => ws
  | k + 1, ws =>
      let n := ws.length
      let w := rotl 1 ((ws.getD (n - 3) 0 ^^^ ws.getD (n - 8) 0) ^^^
        (ws.getD (n - 14) 0 ^^^ ws.getD (n - 16) 0))
      extendWords k (ws ++ [w])

/-- The SHA-1 working state: five 32-bit words. -/
def Sha1State : Type := Nat × Nat × Nat × Nat × Nat

/-- One SHA-1 round on the working state. -/
def sha1Round (ws : List Nat) (st : Sha1State) (t : Nat) : Sha1State :=
  let (a, b, c, d, e) := st
  let temp := m32 (rotl 5 a + sha1F t b c d + e + sha1K t + ws.getD t 0)
  (temp, a, rotl 30 b, c, d)

/-- Compression of one 64-byte chunk into the running hash state. -/
def sha1Compress (h : Sha1State) (chunk : List Nat) : Sha1State :=
  let ws := extendWords 64 (bytesToWords chunk)
  let (h₀, h₁, h₂, h₃, h₄) := h
  let (a, b, c, d, e) :=
    (List.range 80).foldl (sha1Round ws) (h₀, h₁, h₂, h₃, h₄)
  (m32 (h₀ + a), m32 (h₁ + b), m32 (h₂ + c), m32 (h₃ + d), m32 (h₄ + e))

/-- The SHA-1 initial hash state. -/
def sha1Init : Sha1State :=
  (0x67452301, 0xEFCDAB89, 0x98BADCFE, 0x10325476, 0xC3D2E1F0)

/-- `n` as `k` bytes, big-endian. -/
def natToBytesBE : Nat → Nat → List Nat
  | 0, _ => []
  | k + 1, n => natToBytesBE k (n / 256) ++ [n % 256]

/-- SHA-1 padding: append `0x80`, zeros up to 56 mod 64, then the 8-byte
big-endian bit length. -/
def sha1Pad (msg : List Nat) : List Nat :=
  let ml := msg.length
  let zeros := (120 - (ml + 1) % 64) % 64
  msg ++ 128 :: List.replicate zeros 0 ++ natToBytesBE 8 (ml * 8)

/-- Fold `k` 64-byte chunks of `l` into the hash state. -/
def sha1Loop : Nat → Sha1State → List Nat → Sha1State
  | 0, h, _ => h
  | k + 1, h, l => sha1Loop k (sha1Compress h (l.take 64)) (l.drop 64)

/-- `hashlib.sha1(msg).digest()`: the 20-byte SHA-1 digest of a byte
string. -/
def sha1Bytes (msg : List Nat) : List Nat :=
  let padded := sha1Pad msg
  let (a, b, c, d, e) := sha1Loop (padded.length / 64) sha1Init padded
  natToBytesBE 4 a ++ natToBytesBE 4 b ++ natToBytesBE 4 c ++
    natToBytesBE 4 d ++ natToBytesBE 4 e

/-- `hmac.new(key, msg, hashlib.sha1).digest()`: HMAC-SHA1 with block
size 64. -/
def hmacSha1 (key msg : List Nat) : List Nat :=
  let key := if 64 < key.length then sha1Bytes key else key
  let key := key ++ List.replicate (64 - key.length) 0
  let ipad := key.map (· ^^^ 0x36)
  let opad := key.map (· ^^^ 0x5C)
  sha1Bytes (opad ++ sha1Bytes (ipad ++ msg))

/-- One lowercase hex digit. -/
def hexChar (n : Nat) : Char :=
  if n < 10 then Char.ofNat (48 + n) else Char.ofNat (87 + n)

/-- Lowercase hex rendering of a byte string (`.hexdigest()`). -/
def hexOfBytes (bs : List Nat) : List Char :=
  bs.foldr (fun b acc => hexChar (b / 16) :: hexChar (b % 16) :: acc) []

/-- Python `str.lower()` on one character, for the ASCII range the
signatures live in. -/
def pyLowerChar (c : Char) : Char :=
  if 'A' ≤ c ∧ c ≤ 'Z' then Char.ofNat (c.toNat + 32) else c

/-- Python `str.lower()` over a string as a character list. -/
def pyLower (s : List Char) : List Char := s.map pyLowerChar

/-- `verify_signature(header_sig, body)` (server/main.py) for a secret
`key`: a falsy header (absent or empty) returns `False` before any HMAC is
computed; otherwise the lowercased header is compared
(`hmac.compare_digest`) with the lowercased
`hmac.new(key, body, hashlib.sha1).hexdigest()`.  The code performs no
stripping of a `sha1=` prefix.  Returns the verdict paired with the number
of HMAC computations performed. -/
def verify_signature (key : List Nat) (header_sig : Option (List Char))
    (body : List Nat) : Bool × Nat :=
  match header_sig with
  | none => (false, 0)
  | some s =>
    if s = [] then (false, 0)
    else (pyLower s == pyLower (hexOfBytes (hmacSha1 key body)), 1)

/-! ### Telegram message classification and the oversize guard —
`bot/process_message.py` -/

/-- A Telegram photo size entry (aiogram `PhotoSize`). -/
structure PhotoSize where
  file_id : String
  file_unique_id : String
  file_size : Option Nat
  deriving DecidableEq, Repr

/-- A Telegram document (aiogram `Document`). -/
structure TgDocument where
  file_id : String
  file_name : Option String
  file_size : Option Nat
  deriving DecidableEq, Repr

/-- A Telegram audio/voice/video file (aiogram): only the fields
`identify_file_data` reads. -/
structure TgMedia where
  file_id : String
  file_size : Option Nat
  deriving DecidableEq, Repr

/-- A Telegram sticker (aiogram `Sticker`): fields read by
`identify_file_data`. -/
structure TgSticker where
  file_id : String
  file_unique_id : String
  is_animated : Bool
  is_video : Bool
  file_size : Option Nat
  deriving DecidableEq, Repr

/-- A Telegram message, restricted to the fields
`bot/process_message.py` reads.  `photo` is a list of sizes
(`message.photo[-1]` picks the largest); each media field is `None` when
the message is not of that kind. -/
structure Message where
  text : Option String
  caption : Option String
  photo : Option (List PhotoSize)
  document : Option TgDocument
  audio : Option TgMedia
  voice : Option TgMedia
  video : Option TgMedia
  sticker : Option TgSticker
  message_id : Nat
  media_group_id : Option String
  deriving DecidableEq, Repr

/-- `identify_file_data(message)` (bot/process_message.py): first matching
media kind wins; returns `(file_id, filename, file_size)`, all `None` for
an unsupported message.  `message.photo` is truthy only when it is a
non-empty list, and `photo[-1]` is its last element. -/
def identify_file_data (m : Message) :
    Option String × Option String × Option Nat :=
  match (m.photo.getD []).getLast? with
  | some file =>
      (some file.file_id, some (file.file_unique_id ++ ".jpg"), file.file_size)
  | none =>
    match m.document with
    | some d => (some d.file_id, some (d.file_name.getD "document"), d.file_size)
    | none =>
      match m.audio with
      | some a => (some a.file_id, some ("audio_" ++ a.file_id ++ ".mp3"),
          a.file_size)
      | none =>
        match m.voice with
        | some v => (some v.file_id, some ("voice_" ++ v.file_id ++ ".ogg"),
            v.file_size)
        | none =>
          match m.video with
          | some v => (some v.file_id, some ("video_" ++ v.file_id ++ ".mp4"),
              v.file_size)
          | none =>
            match m.sticker with
            | some s =>
                let ext := if s.is_animated then "tgs"
                  else if s.is_video then "webm" else "webp"
                (some s.file_id,
                  some ("sticker_" ++ s.file_unique_id ++ "." ++ ext),
                  some (s.file_size.getD 0))
            | none => (none, none, none)

/-- Result of `process_single_file_for_comment` (bot/process_message.py):
either a user-facing error string or the `(file_id, filename)` pair. -/
inductive FileCheckResult where
  | userError (msg : String)
  | ok (file_id : String) (filename : Option String)
  deriving DecidableEq, Repr

/-- Python truthiness of an optional integer: `None` and `0` are falsy. -/
def natOptTruthy : Option Nat → Bool
  | none => false
  | some n => n ≠ 0

/-- `process_single_file_for_comment(message)` (bot/process_message.py):
unsupported messages yield an error string; a truthy reported size above
`settings.MAX_FILE_SIZE` yields the oversize error string; otherwise the
`(file_id, filename)` pair is returned.  No download happens here. -/
def process_single_file_for_comment (maxFileSize : Nat) (m : Message) :
    FileCheckResult :=
  match identify_file_data m with
  | (file_id?, filename, file_size) =>
    match file_id? with
    | none => .userError "⚠️ Неподдерживаемый тип файла"
    | some fid =>
      if natOptTruthy file_size && decide (maxFileSize < file_size.getD 0) then
        .userError "⚠️ Файл слишком большой! Максимум 20МБ"
      else .ok fid filename

/-- An external call made by the bot-side comment path: downloading a file
from Telegram (`process_file`: `bot.get_file`/`bot.download_file` plus the
Pyrus upload), posting a comment (`send_comment_in_pyrus`), or replying an
error to the user (`msg.reply`). -/
inductive BotCall where
  | download (file_id : String)
  | sendComment (payload : CommentPayload)
  | reply (msg : String)
  deriving DecidableEq, Repr

/-- `BotCall.isDownload`: whether the call is a file download. -/
def BotCall.isDownload : BotCall → Bool
  | .download _ => true
  | _ => false

/-- `process_single_comment(msg, task_id)` (bot/process_message.py) as the
ordered list of external calls it makes.  A truthy `msg.text` sends the
text as a comment.  Otherwise the file is classified and size-checked by
`process_single_file_for_comment`; an error string is reported to the user
with no download.  Only a successful check reaches `process_file`, whose
download/upload outcome is given by `processFileResult` (`none` models a
failure, reported to the user). -/
def process_single_comment (maxFileSize : Nat) (m : Message)
    (processFileResult : String → Option String) : List BotCall :=
  if strTruthy m.text then
    [.sendComment (build_payload m.text (some []))]
  else
    match process_single_file_for_comment maxFileSize m with
    | .userError _ =>
        [.reply "Произошла ошибка при обработке файла. Попробуйте еще раз."]
    | .ok fid _fname =>
        .download fid ::
          match processFileResult fid with
          | none =>
              [.reply "Произошла ошибка при обработке файла. Попробуйте еще раз."]
          | some guid =>
              [.sendComment (build_payload m.caption (some [guid]))]

/-! ### Webhook attachment download — `utils.py` -/

/-- A Pyrus attachment descriptor, restricted to the keys `download_one`
reads (`url`, `size`, `name`, `id`); each may be absent. -/
structure Attachment where
  url : Option String
  size : Option Nat
  name : Option String
  id : Option Nat
  deriving DecidableEq, Repr

/-- Result of `download_one` (utils.py): an error record
`{"error": ...}` or a downloaded `{"filename", "content"}` pair. -/
inductive DownloadOneResult where
  | error (msg : String)
  | file (filename : String) (content : List Nat)
  deriving DecidableEq, Repr

/-- `download_one(client, attachment, headers)` (utils.py), together with
the number of download API calls it performs.  Checks, in order: a falsy
name, a falsy url or size, and a size above `settings.MAX_FILE_SIZE`, each
return an error record with no API call.  Only then is the download
`api_request("GET", url=..., params={"download": True})` issued (its
outcome given by `apiDownload`; `none` models an exception or a non-bytes
response). -/
def download_one (maxFileSize : Nat) (att : Attachment)
    (apiDownload : Option Nat → Option (List Nat)) :
    DownloadOneResult × Nat :=
  if ¬ strTruthy att.name then (.error "No filename", 0)
  else if ¬ strTruthy att.url ∨ ¬ natOptTruthy att.size then
    (.error "No URL or size", 0)
  else if maxFileSize < att.size.getD 0 then (.error "File too large", 0)
  else
    match apiDownload att.id with
    | some content => (.file (att.name.getD "") content, 1)
    | none => (.error "Invalid response", 1)

/-! ### Media-group debounce — `bot/process_message.py`
`process_media_group`

Per group key, `media_groups_data[key]` buffers the arriving messages and
`processing_tasks` guards that at most one flush task is scheduled: the
first message of a burst creates a task that sleeps 3 time-units, then
atomically pops the buffer and removes the key from the guard set before
processing.  The model below simulates one key's evolution over a
chronological list of arrivals; each buffered message is the pair
(arrival time, message id). -/

/-- The per-key state of the media-group aggregator: the buffered
messages (`media_groups_data[key]`), the deadlines of the flush tasks
created for this key, whether the key is in `processing_tasks`, and the
flushes performed so far (fire time paired with the popped buffer). -/
structure GroupState where
  buffer : List (Nat × Nat)
  timers : List Nat
  inProc : Bool
  flushes : List (Nat × List (Nat × Nat))
  deriving DecidableEq, Repr

/-- The state before any message arrived. -/
def initGroup : GroupState := ⟨[], [], false, []⟩

/-- A flush task firing at its deadline `d` (`process_group` after
`asyncio.sleep(3)`): pop the buffer and leave `processing_tasks` in one
atomic step; an empty popped buffer is discarded, a non-empty one is
processed as one flush. -/
def fireOne (s : GroupState) (d : Nat) : GroupState :=
  { buffer := []
    timers := s.timers.erase d
    inProc := false
    flushes := if s.buffer = [] then s.flushes
      else s.flushes ++ [(d, s.buffer)] }

/-- Fire every pending flush task whose deadline has been reached by
time `t`. -/
def fireDue (t : Nat) (s : GroupState) : GroupState :=
  (s.timers.filter (· ≤ t)).foldl fireOne s

/-- The synchronous body of `process_media_group` (bot/process_message.py)
for a message arriving at time `t`: append it to
`media_groups_data[key]`; if the key is already in `processing_tasks`
nothing else happens (no new timer), otherwise the key is added and a
flush task with deadline `t + 3` is created — the timer is armed by the
first message of a burst only, never reset. -/
def appendAndArm (s : GroupState) (t msgId : Nat) : GroupState :=
  let s' := { s with buffer := s.buffer ++ [(t, msgId)] }
  if s'.inProc then s'
  else { s' with inProc := true, timers := s'.timers ++ [t + 3] }

/-- One `process_media_group(message, ...)` call for a message of this
group arriving at time `t`: any due flush fires first, then the message
is appended and, when no flush is pending, a new one is armed. -/
def addMessage (s : GroupState) (t msgId : Nat) : GroupState :=
  appendAndArm (fireDue t s) t msgId

/-- Feed a chronological list of (time, message id) arrivals. -/
def addEvents (s : GroupState) (arrivals : List (Nat × Nat)) : GroupState :=
  arrivals.foldl (fun s p => addMessage s p.1 p.2) s

/-- Run a whole scenario: feed all arrivals, then let the remaining flush
tasks fire. -/
def runGroup (arrivals : List (Nat × Nat)) : GroupState :=
  let s := addEvents initGroup arrivals
  s.timers.foldl fireOne s

/-- The debounce invariant: at most one flush task is scheduled; the key
is in `processing_tasks` exactly while a task is scheduled; an idle key
has an empty buffer; a scheduled deadline is the arrival time of the
first buffered message plus 3; and every recorded flush is non-empty and
fired exactly 3 time-units after its first message arrived. -/
def GroupInv (s : GroupState) : Prop :=
  s.timers.length ≤ 1 ∧
    (s.inProc ↔ s.timers ≠ []) ∧
    (¬ s.inProc → s.buffer = []) ∧
    (∀ d ∈ s.timers, ∃ t₀ i rest, s.buffer = (t₀, i) :: rest ∧ d = t₀ + 3) ∧
    (∀ f ∈ s.flushes,
      ∃ t₀ i rest, f.2 = (t₀, i) :: rest ∧ f.1 = t₀ + 3)

/-! ### Webhook event processing — `server/main.py` `process_webhook` -/

/-- A Pyrus form field as read by `find_value` (utils.py): `id` and
`value` keys, each possibly absent (the value may also be JSON `null`). -/
structure PyrusField where
  id : Option Nat
  value : Option String
  deriving DecidableEq, Repr

/-- `find_value(fields, field_id)` (utils.py): the `value` of the first
field whose `id` equals `field_id`, `None` when no field matches (or the
matching field has no value). -/
def find_value (fields : List PyrusField) (field_id : Nat) : Option String :=
  match fields.find? (fun f => f.id == some field_id) with
  | some f => f.value
  | none => none

/-- A Pyrus comment, restricted to the keys `process_webhook` reads. -/
structure PyrusComment where
  create_date : Option String
  channelType : Option String
  text : Option String
  attachments : Option (List Attachment)
  deriving DecidableEq, Repr

/-- A Pyrus task, restricted to the keys `process_webhook` reads. -/
structure PyrusTask where
  create_date : Option String
  fields : List PyrusField
  comments : Option (List PyrusComment)
  deriving DecidableEq, Repr

/-- A parsed webhook payload (the JSON body of `process_webhook`). -/
structure WebhookPayload where
  task : Option PyrusTask
  access_token : Option String
  event : Option String
  task_id : Option Nat
  deriving DecidableEq, Repr

/-- What a `process_webhook` run returned and which external effects it
performed: the HTTP status of its response (a raised `HTTPException`
carries its status code), the number of `open_chat` comment calls, the
number of `download_files` batch calls, and the number of
`send_message_to_telegram_chat` calls. -/
structure WebhookOutcome where
  status : Nat
  openChatCalls : Nat
  downloadBatches : Nat
  telegramSends : Nat
  deriving DecidableEq, Repr

/-- Python truthiness of an optional list of any element type. -/
def optListTruthy {α : Type} : Option (List α) → Bool
  | none => false
  | some [] => false
  | some (_ :: _) => true

/-- Numeric value of a list of decimal digits. -/
def digitsVal (cs : List Char) : Nat :=
  cs.foldl (fun acc c => 10 * acc + (c.toNat - 48)) 0

/-- Python `str.strip()`: drop leading and trailing whitespace. -/
def pyStripChars (s : List Char) : List Char :=
  ((s.dropWhile Char.isWhitespace).reverse.dropWhile Char.isWhitespace).reverse

/-- Python `int(str)` on an ASCII string: optional sign followed by a
non-empty run of digits after stripping whitespace; anything else raises
`ValueError`, modelled as `none`. -/
def pyToInt (s : String) : Option Int :=
  match pyStripChars s.toList with
  | '-' :: rest =>
      if rest ≠ [] ∧ rest.all (·.isDigit) then some (-(digitsVal rest : Int))
      else none
  | '+' :: rest =>
      if rest ≠ [] ∧ rest.all (·.isDigit) then some ((digitsVal rest : Int))
      else none
  | cs =>
      if cs ≠ [] ∧ cs.all (·.isDigit) then some ((digitsVal cs : Int))
      else none

/-- `settings.REQUEST_FORM_FIELDS["tg_id"]` (config.py): the form field id
holding the destination Telegram chat id. -/
def REQUEST_FORM_FIELDS_tg_id : Nat := 29

/-- `process_webhook(body, ...)` (server/main.py) on a parsed payload, on
the path where the external calls that are attempted succeed (`get_token`,
`download_files`, `open_chat` and the Telegram send are external
collaborators; `botAvailable` is whether `BotClient.get_instance()`
returns an instance).  The `require(...)` chain raises `HTTPException(500)`
on any falsy mandatory key.  If the last comment's `create_date` equals
the task's, only `open_chat` runs and 200 is returned.  A last comment not
from the `telegram` channel is acknowledged with 200.  Otherwise
attachments (when truthy) are downloaded, the chat id is resolved from the
`tg_id` form field and converted with `int(str(chat_id).strip())` — a
missing, falsy or unconvertible chat id is acknowledged with 200 without
sending — and finally the message is forwarded to the chat. -/
def process_webhook (botAvailable : Bool) (data : WebhookPayload) :
    WebhookOutcome :=
  match data.task with
  | none => ⟨500, 0, 0, 0⟩
  | some task =>
    if ¬ strTruthy data.access_token then ⟨500, 0, 0, 0⟩
    else if task.fields = [] then ⟨500, 0, 0, 0⟩
    else match task.comments with
    | none => ⟨500, 0, 0, 0⟩
    | some [] => ⟨500, 0, 0, 0⟩
    | some (c :: cs) =>
      if ¬ strTruthy data.event then ⟨500, 0, 0, 0⟩
      else match data.task_id with
      | none => ⟨500, 0, 0, 0⟩
      | some tid =>
        if tid = 0 then ⟨500, 0, 0, 0⟩
        else match task.create_date with
        | none => ⟨500, 0, 0, 0⟩
        | some cd =>
          if cd = "" then ⟨500, 0, 0, 0⟩
          else
            let last := (c :: cs).getLast (List.cons_ne_nil c cs)
            if last.create_date == some cd then ⟨200, 1, 0, 0⟩
            else if ¬ (last.channelType == some "telegram") then ⟨200, 0, 0, 0⟩
            else
              let dls := if optListTruthy last.attachments then 1 else 0
              if ¬ botAvailable then ⟨200, 0, dls, 0⟩
              else match find_value task.fields REQUEST_FORM_FIELDS_tg_id with
              | none => ⟨200, 0, dls, 0⟩
              | some v =>
                if v = "" then ⟨200, 0, dls, 0⟩
                else match pyToInt v with
                | none => ⟨200, 0, dls, 0⟩
                | some _ => ⟨200, 0, dls, 1⟩

/-! ### API errors, retry policy and token lifecycle — `pyrus_api_service.py` -/

/-- Errors an API attempt can raise: `httpx.HTTPStatusError` with a status
code, or any other (transport-level) exception. -/
inductive ApiErr where
  | httpStatus (code : Nat)
  | network
  deriving DecidableEq, Repr

/-- `retry_on_exception(exc)` (pyrus_api_service.py): an
`httpx.HTTPStatusError` whose response status is 403 must not be retried;
every other exception is retried. -/
def retry_on_exception : ApiErr → Bool
  | .httpStatus 403 => false
  | _ => true

/-- Wait computed by tenacity's
`wait_exponential(multiplier=1, min=4, max=10)` before retry number
`attempt + 1`: the exponential `multiplier * 2 ^ attempt` clamped into
`[min, max]`. -/
def wait_exponential (multiplier minW maxW attempt : Nat) : Nat :=
  max minW (min (multiplier * 2 ^ attempt) maxW)

/-- Semantics of tenacity's `@retry(stop=stop_after_attempt(3), ...,
retry=retry_if_exception(shouldRetry))` driver: `f n` is the outcome of the
n-th underlying attempt, `fuel` the number of further attempts allowed.
Returns the number of attempts performed and the final outcome.  A
successful attempt returns; a failure the predicate refuses to retry
surfaces immediately; otherwise the call is retried until the attempt
budget is exhausted. -/
def runRetryFrom {α : Type} (shouldRetry : ApiErr → Bool)
    (f : Nat → Except ApiErr α) : Nat → Nat → Nat × Except ApiErr α
  | attempt, fuel =>
    match f attempt with
    | .ok v => (attempt, .ok v)
    | .error e =>
      if shouldRetry e then
        match fuel with
        | 0 => (attempt, .error e)
        | fuel' + 1 => runRetryFrom shouldRetry f (attempt + 1) fuel'
      else (attempt, .error e)

/-- `api_request` under its decorator
`@retry(stop=stop_after_attempt(3), wait=wait_exponential(multiplier=1,
min=4, max=10), retry=retry_if_exception(retry_on_exception))`
(pyrus_api_service.py): up to 3 attempts, non-retryable failures surface at
once.  `f n` gives the outcome of the n-th underlying attempt. -/
def api_request_retried {α : Type} (f : Nat → Except ApiErr α) :
    Nat × Except ApiErr α :=
  runRetryFrom retry_on_exception f 1 2

/-- The mutable state of `TokenManager` (pyrus_api_service.py): the cached
token, `None` when absent. -/
structure TokenState where
  token : Option String
  deriving DecidableEq, Repr

/-- `TokenManager.invalidate()` (pyrus_api_service.py): unconditionally
clears the cached token (`self._token = None`). -/
def TokenManager.invalidate (_s : TokenState) : TokenState :=
  { token := none }

/-- Sequential semantics of `TokenManager.get_token()`
(pyrus_api_service.py) for a single caller on the success path: a cached
token is returned with no refresh; an empty cache triggers one
`_refresh_token()` network call, which stores and returns the fresh token.
Returns (new state, token returned, number of refresh network calls). -/
def TokenManager.get_token_seq (fresh : String) :
    TokenState → TokenState × String × Nat
  | ⟨some t⟩ => (⟨some t⟩, t, 0)
  | ⟨none⟩ => (⟨some fresh⟩, fresh, 1)

/-! #### Concurrent `get_token` callers — double-checked locking

`TokenManager.get_token` (pyrus_api_service.py) reads `self._token`
without the lock (fast path), and on a miss acquires `self._lock`,
re-checks, and only on a second miss calls `_refresh_token()`, which sets
`self._token` before the lock is released.  In asyncio, code between
`await` points runs atomically; the interleaving points are the lock
acquisition and the refresh network call.  Each of N concurrent callers
is modelled by a program counter; the transition relation below has one
constructor per atomic step of the method on the success path (the
refresh succeeding and setting the token). -/

/-- Program counter of one `get_token()` caller: before the unlocked
fast-path check; waiting on `async with self._lock`; holding the lock and
about to re-check; holding the lock with the token known present (about to
release and return); returned. -/
inductive TmPc where
  | start
  | wantLock
  | locked
  | exiting
  | done
  deriving DecidableEq, Repr

/-- Global configuration of one `TokenManager` shared by `n` concurrent
`get_token()` callers: the cached token, the holder of `self._lock`, each
caller's program counter, and the number of `_refresh_token()` network
calls performed so far. -/
structure TmConfig (n : Nat) where
  token : Option String
  lock : Option (Fin n)
  pcs : Fin n → TmPc
  refreshes : Nat

/-- The configuration before any caller has run: empty cache, free lock,
all callers at the fast-path check, no refresh performed. -/
def initTm (n : Nat) : TmConfig n :=
  ⟨none, none, fun _ => TmPc.start, 0⟩

/-- One atomic step of some caller `i` of `get_token()` (success path):
the unlocked fast-path check (hit returns, miss proceeds to the lock);
acquiring the free lock; the re-check under the lock (hit proceeds to
return, miss performs the refresh network call which stores `fresh`);
releasing the lock and returning. -/
inductive TmStep (fresh : String) {n : Nat} :
    TmConfig n → TmConfig n → Prop where
  | fastHit (c : TmConfig n) (i : Fin n) (t : String) :
      c.pcs i = TmPc.start → c.token = some t →
      TmStep fresh c { c with pcs := Function.update c.pcs i TmPc.done }
  | fastMiss (c : TmConfig n) (i : Fin n) :
      c.pcs i = TmPc.start → c.token = none →
      TmStep fresh c { c with pcs := Function.update c.pcs i TmPc.wantLock }
  | acquire (c : TmConfig n) (i : Fin n) :
      c.pcs i = TmPc.wantLock → c.lock = none →
      TmStep fresh c { c with lock := some i, pcs := Function.update c.pcs i TmPc.locked }
  | recheckHit (c : TmConfig n) (i : Fin n) (t : String) :
      c.pcs i = TmPc.locked → c.lock = some i → c.token = some t →
      TmStep fresh c { c with pcs := Function.update c.pcs i TmPc.exiting }
  | refresh (c : TmConfig n) (i : Fin n) :
      c.pcs i = TmPc.locked → c.lock = some i → c.token = none →
      TmStep fresh c { c with token := some fresh, refreshes := c.refreshes + 1, pcs := Function.update c.pcs i TmPc.exiting }
  | release (c : TmConfig n) (i : Fin n) :
      c.pcs i = TmPc.exiting → c.lock = some i →
      TmStep fresh c { c with lock := none, pcs := Function.update c.pcs i TmPc.done }

/-- The single-flight invariant: a caller inside the critical section
holds the lock; a caller past the re-check, and any returned caller, has
seen a present token; and either no refresh has happened and the cache is
empty, or exactly one refresh has happened and the cache holds the token
it stored. -/
def TmInv {n : Nat} (fresh : String) (c : TmConfig n) : Prop :=
  (∀ i, (c.pcs i = TmPc.locked ∨ c.pcs i = TmPc.exiting) →
    c.lock = some i) ∧
    (∀ i, c.pcs i = TmPc.exiting → c.token.isSome) ∧
    (∀ i, c.pcs i = TmPc.done → c.token.isSome) ∧
    ((c.refreshes = 0 ∧ c.token = none) ∨
      (c.refreshes = 1 ∧ c.token = some fresh))

/-- A one-caller trace, step 1: the fast path misses on the empty cache. -/
def tmC1 : TmConfig 1 :=
  { initTm 1 with pcs := Function.update (initTm 1).pcs 0 TmPc.wantLock }

/-- Step 2: caller 0 acquires the lock. -/
def tmC2 : TmConfig 1 :=
  { tmC1 with lock := some 0, pcs := Function.update tmC1.pcs 0 TmPc.locked }

/-- Step 3: the re-check misses, so caller 0 performs the one refresh. -/
def tmC3 : TmConfig 1 :=
  { tmC2 with token := some "tok", refreshes := tmC2.refreshes + 1, pcs := Function.update tmC2.pcs 0 TmPc.exiting }

/-- Step 4: caller 0 releases the lock and returns. -/
def tmC4 : TmConfig 1 :=
  { tmC3 with lock := none, pcs := Function.update tmC3.pcs 0 TmPc.done }

/-- One underlying attempt of `api_request` (pyrus_api_service.py), as a
transformer of the token state given the HTTP status of the response:
fetch a token via `get_token`, then on status 401 call
`TokenManager.invalidate()` and raise `HTTPStatusError`; `raise_for_status`
raises for any other status ≥ 400; otherwise the call succeeds. -/
def api_request_attempt (fresh : String) (s : TokenState) (status : Nat) :
    TokenState × Except ApiErr Unit :=
  let s' := (TokenManager.get_token_seq fresh s).1
  if status = 401 then (TokenManager.invalidate s', .error (.httpStatus 401))
  else if 400 ≤ status then (s', .error (.httpStatus status))
  else (s', .ok ())

end StarSmile

namespace StarSmile

/-! ### Claim theorems -/

/-- C1 counterexample: with 500 events already pending (the queue's
capacity), the accept operation blocks; it does not return the saturation
error the claim asks for. -/
theorem queuePut_full_counterexample :
    queuePut 500 = QueuePutResult.blocked ∧
      queuePut 500 ≠ QueuePutResult.saturationError := by
  constructor <;> decide

/-- C1 (amended): enqueueing never yields a saturation error and never
drops the event: below capacity 500 the event is enqueued, at or above
capacity the caller blocks until space frees. -/
theorem queuePut_blocks_when_full (pending : Nat) :
    (pending < 500 → queuePut pending = QueuePutResult.enqueued) ∧
      (500 ≤ pending → queuePut pending = QueuePutResult.blocked) ∧
      queuePut pending ≠ QueuePutResult.saturationError := by
  refine ⟨fun h => ?_, fun h => ?_, ?_⟩
  · simp [queuePut, webhookQueueMaxsize, h]
  · simp [queuePut, webhookQueueMaxsize, Nat.not_lt.mpr h]
  · unfold queuePut
    split <;> simp

/-- C1 witness: at exactly 500 pending events the put blocks. -/
theorem queuePut_blocks_when_full_witness :
    (500 ≤ 500 → queuePut 500 = QueuePutResult.blocked) ∧
      queuePut 500 ≠ QueuePutResult.saturationError :=
  ⟨(queuePut_blocks_when_full 500).2.1, (queuePut_blocks_when_full 500).2.2⟩

/-- C9: `build_payload` always sets channel type `"telegram"`, its text is
never empty, and an empty or missing input text becomes the placeholder
`"..."`. -/
theorem build_payload_channel_and_text (text : Option String)
    (files : Option (List String)) :
    (build_payload text files).channelType = "telegram" ∧
      (build_payload text files).text ≠ "" ∧
      ((text = none ∨ text = some "") →
        (build_payload text files).text = "...") := by
  refine ⟨rfl, ?_, ?_⟩
  · unfold build_payload strTruthy
    match text with
    | none => simp
    | some s =>
      by_cases h : s = "" <;> simp [h]
  · rintro (h | h) <;> subst h <;> simp [build_payload, strTruthy]

set_option maxRecDepth 100000 in
/-- C2: evaluation of `verify_signature` with secret `"s"` (bytes `[115]`)
and body `b"\x7b\x7d"` (bytes `[123, 125]`), whose HMAC-SHA1 hexdigest is
`850413ce2dee4c4142838bab9e9086cb305da54d`: the exact lowercase hex is
accepted, the uppercase variant is accepted (case-insensitive compare), a
missing header is rejected with zero HMAC computations, a one-character
mutation is rejected — but, contrary to the claim and to the function's
own docstring ("Accepts optional 'sha1=' prefix in header"), the
`sha1=`-prefixed valid signature is rejected: the code never strips the
prefix. -/
theorem verify_signature_eval :
    verify_signature [115]
        (some ("850413ce2dee4c4142838bab9e9086cb305da54d".toList))
        [123, 125] = (true, 1) ∧
      verify_signature [115]
        (some ("850413CE2DEE4C4142838BAB9E9086CB305DA54D".toList))
        [123, 125] = (true, 1) ∧
      verify_signature [115] none [123, 125] = (false, 0) ∧
      verify_signature [115]
        (some ("850413ce2dee4c4142838bab9e9086cb305da54e".toList))
        [123, 125] = (false, 1) ∧
      verify_signature [115]
        (some ("sha1=850413ce2dee4c4142838bab9e9086cb305da54d".toList))
        [123, 125] = (false, 1) := by
  refine ⟨?_, ?_, rfl, ?_, ?_⟩ <;> decide

/-- C6: the retried `api_request` performs up to 3 attempts: two
retryable (transient) failures followed by a success on the 3rd attempt
yield that success after exactly 3 attempts; a 403 response is never
retried — exactly one attempt is observed and the failure surfaces
immediately; every backoff wait of
`wait_exponential(multiplier=1, min=4, max=10)` lies in `[4, 10]`. -/
theorem api_request_retry_policy {α : Type} (f g : Nat → Except ApiErr α)
    (v : α) (e₁ e₂ : ApiErr)
    (h1 : f 1 = .error e₁) (hr1 : retry_on_exception e₁ = true)
    (h2 : f 2 = .error e₂) (hr2 : retry_on_exception e₂ = true)
    (h3 : f 3 = .ok v)
    (h403 : g 1 = .error (.httpStatus 403)) :
    api_request_retried f = (3, .ok v) ∧
      api_request_retried g = (1, .error (.httpStatus 403)) ∧
      ∀ n, 4 ≤ wait_exponential 1 4 10 n ∧ wait_exponential 1 4 10 n ≤ 10 := by
  refine ⟨?_, ?_, ?_⟩
  · simp [api_request_retried, runRetryFrom, h1, h2, h3, hr1, hr2]
  · simp [api_request_retried, runRetryFrom, h403, retry_on_exception]
  · intro n
    unfold wait_exponential
    omega

/-- C6 witness: concrete attempt sequences exercising the retry policy. -/
theorem api_request_retry_policy_witness :
    api_request_retried
        (fun n => if n = 3 then (.ok 7 : Except ApiErr Nat)
          else .error .network) = (3, .ok 7) ∧
      api_request_retried
        (fun _ => (.error (.httpStatus 403) : Except ApiErr Nat)) =
          (1, .error (.httpStatus 403)) ∧
      ∀ n, 4 ≤ wait_exponential 1 4 10 n ∧ wait_exponential 1 4 10 n ≤ 10 :=
  api_request_retry_policy _ _ 7 ApiErr.network ApiErr.network
    rfl rfl rfl rfl rfl rfl

/-- C7: an `api_request` attempt that receives HTTP 401 clears the cached
token via `TokenManager.invalidate()` and raises, and the next
`get_token()` call performs a fresh refresh (exactly one refresh network
call) even though a token was cached immediately before. -/
theorem api_request_401_invalidates (fresh fresh' t : String)
    (s : TokenState) (hcached : s.token = some t) :
    (api_request_attempt fresh s 401).1.token = none ∧
      (api_request_attempt fresh s 401).2 = .error (.httpStatus 401) ∧
      (TokenManager.get_token_seq fresh'
        (api_request_attempt fresh s 401).1).2.2 = 1 ∧
      (TokenManager.get_token_seq fresh'
        (api_request_attempt fresh s 401).1).2.1 = fresh' := by
  obtain ⟨tok⟩ := s
  simp only [TokenState.token] at hcached
  subst hcached
  refine ⟨rfl, rfl, rfl, rfl⟩

/-- C7 witness: invalidation after 401 with the token `"old"` cached. -/
theorem api_request_401_invalidates_witness :
    (api_request_attempt "f" ⟨some "old"⟩ 401).1.token = none ∧
      (api_request_attempt "f" ⟨some "old"⟩ 401).2 =
        .error (.httpStatus 401) ∧
      (TokenManager.get_token_seq "g"
        (api_request_attempt "f" ⟨some "old"⟩ 401).1).2.2 = 1 ∧
      (TokenManager.get_token_seq "g"
        (api_request_attempt "f" ⟨some "old"⟩ 401).1).2.1 = "g" :=
  api_request_401_invalidates "f" "g" "old" ⟨some "old"⟩ rfl

/-- C8: a message whose identified file reports a size above the
configured ceiling is answered with a user-facing error and no download
call is ever issued, in both the bot path (`process_single_comment`, whose
call list is exactly one error reply) and the webhook attachment path
(`download_one`, which returns the oversize error record with zero
download API calls). -/
theorem oversize_rejected_before_download (maxFileSize : Nat) (m : Message)
    (pf : String → Option String) (fid : String) (fname : Option String)
    (sz sz₂ : Nat) (att : Attachment)
    (dl : Option Nat → Option (List Nat))
    (hTextless : strTruthy m.text = false)
    (hident : identify_file_data m = (some fid, fname, some sz))
    (hsz : maxFileSize < sz)
    (hname : strTruthy att.name = true)
    (hurl : strTruthy att.url = true)
    (hattsz : att.size = some sz₂)
    (hsz₂ : maxFileSize < sz₂) :
    process_single_comment maxFileSize m pf =
        [.reply "Произошла ошибка при обработке файла. Попробуйте еще раз."] ∧
      (∀ c ∈ process_single_comment maxFileSize m pf,
        c.isDownload = false) ∧
      download_one maxFileSize att dl = (.error "File too large", 0) := by
  have hsz0 : sz ≠ 0 := by omega
  have hcheck : process_single_file_for_comment maxFileSize m =
      .userError "⚠️ Файл слишком большой! Максимум 20МБ" := by
    unfold process_single_file_for_comment
    rw [hident]
    simp [natOptTruthy, hsz0, hsz]
  have h1 : process_single_comment maxFileSize m pf =
      [.reply "Произошла ошибка при обработке файла. Попробуйте еще раз."] := by
    unfold process_single_comment
    simp [hTextless, hcheck]
  refine ⟨h1, ?_, ?_⟩
  · intro c hc
    rw [h1] at hc
    simp at hc
    subst hc
    rfl
  · have hsz₂0 : sz₂ ≠ 0 := by omega
    unfold download_one
    simp [hname, hurl, hattsz, natOptTruthy, hsz₂0, hsz₂]

/-- C8 witness: a document of reported size 101 against a ceiling of 100,
in both paths. -/
theorem oversize_rejected_before_download_witness :
    process_single_comment 100
        { text := none, caption := none, photo := none,
          document := some ⟨"fid", some "doc.pdf", some 101⟩,
          audio := none, voice := none, video := none, sticker := none,
          message_id := 1, media_group_id := none }
        (fun _ => none) =
        [.reply "Произошла ошибка при обработке файла. Попробуйте еще раз."] ∧
      (∀ c ∈ process_single_comment 100
        { text := none, caption := none, photo := none,
          document := some ⟨"fid", some "doc.pdf", some 101⟩,
          audio := none, voice := none, video := none, sticker := none,
          message_id := 1, media_group_id := none }
        (fun _ => none), c.isDownload = false) ∧
      download_one 100 ⟨some "u", some 101, some "n", some 5⟩
        (fun _ => none) = (.error "File too large", 0) :=
  oversize_rejected_before_download 100 _ _ "fid" (some "doc.pdf") 101 101
    ⟨some "u", some 101, some "n", some 5⟩ (fun _ => none)
    rfl rfl (by decide) rfl rfl rfl (by decide)

/-- The single-flight invariant holds in the initial configuration. -/
theorem tmInv_init (fresh : String) (n : Nat) : TmInv fresh (initTm n) := by
  refine ⟨?_, ?_, ?_, Or.inl ⟨rfl, rfl⟩⟩ <;> intro i hi <;>
    simp [initTm] at hi

/-- Every atomic step of the double-checked locking protocol preserves
the single-flight invariant. -/
theorem tmInv_preserved {n : Nat} {fresh : String} {c c' : TmConfig n}
    (h : TmInv fresh c) (hs : TmStep fresh c c') : TmInv fresh c' := by
  obtain ⟨h1, h2, h3, h4⟩ := h
  cases hs with
  | fastHit i t hpc htok =>
    refine ⟨?_, ?_, ?_, h4⟩
    · intro j hj
      by_cases hji : j = i
      · subst hji
        simp [Function.update_same] at hj
      · simp only [Function.update_apply, if_neg hji] at hj
        exact h1 j hj
    · intro j hj
      by_cases hji : j = i
      · subst hji
        simp [Function.update_same] at hj
      · simp only [Function.update_apply, if_neg hji] at hj
        exact h2 j hj
    · intro j hj
      simp [htok]
  | fastMiss i hpc htok =>
    refine ⟨?_, ?_, ?_, h4⟩
    · intro j hj
      by_cases hji : j = i
      · subst hji
        simp [Function.update_same] at hj
      · simp only [Function.update_apply, if_neg hji] at hj
        exact h1 j hj
    · intro j hj
      by_cases hji : j = i
      · subst hji
        simp [Function.update_same] at hj
      · simp only [Function.update_apply, if_neg hji] at hj
        exact h2 j hj
    · intro j hj
      by_cases hji : j = i
      · subst hji
        simp [Function.update_same] at hj
      · simp only [Function.update_apply, if_neg hji] at hj
        exact h3 j hj
  | acquire i hpc hlock =>
    refine ⟨?_, ?_, ?_, h4⟩
    · intro j hj
      by_cases hji : j = i
      · subst hji
        rfl
      · simp only [Function.update_apply, if_neg hji] at hj
        have hcl := h1 j hj
        rw [hlock] at hcl
        cases hcl
    · intro j hj
      by_cases hji : j = i
      · subst hji
        simp [Function.update_same] at hj
      · simp only [Function.update_apply, if_neg hji] at hj
        exact h2 j hj
    · intro j hj
      by_cases hji : j = i
      · subst hji
        simp [Function.update_same] at hj
      · simp only [Function.update_apply, if_neg hji] at hj
        exact h3 j hj
  | recheckHit i t hpc hlock htok =>
    refine ⟨?_, ?_, ?_, h4⟩
    · intro j hj
      by_cases hji : j = i
      · subst hji
        exact hlock
      · simp only [Function.update_apply, if_neg hji] at hj
        exact h1 j hj
    · intro j hj
      simp [htok]
    · intro j hj
      by_cases hji : j = i
      · subst hji
        simp [Function.update_same] at hj
      · simp only [Function.update_apply, if_neg hji] at hj
        exact h3 j hj
  | refresh i hpc hlock htok =>
    refine ⟨?_, ?_, ?_, ?_⟩
    · intro j hj
      by_cases hji : j = i
      · subst hji
        exact hlock
      · simp only [Function.update_apply, if_neg hji] at hj
        exact h1 j hj
    · intro j hj
      simp
    · intro j hj
      simp
    · refine Or.inr ⟨?_, rfl⟩
      rcases h4 with ⟨hr0, -⟩ | ⟨-, htok'⟩
      · simp [hr0]
      · rw [htok] at htok'
        cases htok'
  | release i hpc hlock =>
    refine ⟨?_, ?_, ?_, h4⟩
    · intro j hj
      by_cases hji : j = i
      · subst hji
        simp [Function.update_same] at hj
      · simp only [Function.update_apply, if_neg hji] at hj
        have hcl := h1 j hj
        rw [hlock] at hcl
        exact absurd (Option.some.inj hcl).symm hji
    · intro j hj
      by_cases hji : j = i
      · subst hji
        simp [Function.update_same] at hj
      · simp only [Function.update_apply, if_neg hji] at hj
        exact h2 j hj
    · intro j hj
      by_cases hji : j = i
      · subst hji
        exact h2 _ hpc
      · simp only [Function.update_apply, if_neg hji] at hj
        exact h3 j hj

/-- C3: single-flight token refresh.  For every N ≥ 1 concurrent
`get_token()` callers starting from an empty cache, along any interleaving
of the double-checked locking protocol in which all callers have
returned, exactly one `_refresh_token()` network call was performed, and
the cache holds the token stored by the lock winner, which every caller
observed. -/
theorem token_single_flight (fresh : String) (n : Nat) (hn : 0 < n)
    (c : TmConfig n)
    (hreach : Relation.ReflTransGen (TmStep fresh) (initTm n) c)
    (hdone : ∀ i, c.pcs i = TmPc.done) :
    c.refreshes = 1 ∧ c.token = some fresh := by
  have hinv : TmInv fresh c := by
    clear hdone
    induction hreach with
    | refl => exact tmInv_init fresh n
    | tail hab hbc ih => exact tmInv_preserved ih hbc
  obtain ⟨h1, h2, h3, h4⟩ := hinv
  have hsome := h3 ⟨0, hn⟩ (hdone ⟨0, hn⟩)
  rcases h4 with ⟨hr, htok⟩ | h4r
  · rw [htok] at hsome
    simp at hsome
  · exact ⟨h4r.1, h4r.2⟩

/-- C3 witness: the four-step trace of a single caller refreshing the
empty cache reaches an all-returned configuration with exactly one
refresh. -/
theorem token_single_flight_witness :
    tmC4.refreshes = 1 ∧ tmC4.token = some "tok" := by
  have s1 : TmStep "tok" (initTm 1) tmC1 := TmStep.fastMiss (initTm 1) 0 rfl rfl
  have s2 : TmStep "tok" tmC1 tmC2 := TmStep.acquire tmC1 0 rfl rfl
  have s3 : TmStep "tok" tmC2 tmC3 := TmStep.refresh tmC2 0 rfl rfl rfl
  have s4 : TmStep "tok" tmC3 tmC4 := TmStep.release tmC3 0 rfl rfl
  have hreach : Relation.ReflTransGen (TmStep "tok") (initTm 1) tmC4 :=
    Relation.ReflTransGen.head s1 (Relation.ReflTransGen.head s2
      (Relation.ReflTransGen.head s3 (Relation.ReflTransGen.single s4)))
  exact token_single_flight "tok" 1 (by decide) tmC4 hreach (by decide)

/-- The debounce invariant holds initially. -/
theorem groupInv_init : GroupInv initGroup := by
  simp [GroupInv, initGroup]

/-- Firing a scheduled flush task preserves the debounce invariant. -/
theorem groupInv_fireOne {s : GroupState} {d : Nat} (hd : d ∈ s.timers)
    (h : GroupInv s) : GroupInv (fireOne s d) := by
  obtain ⟨h1, h2, h3, h4, h5⟩ := h
  have htimers : s.timers = [d] := by
    cases ht : s.timers with
    | nil => rw [ht] at hd; cases hd
    | cons a rest =>
      rw [ht] at h1 hd
      have hrest : rest = [] := by
        cases rest with
        | nil => rfl
        | cons b r => simp at h1
      subst hrest
      simp at hd
      subst hd
      rfl
  refine ⟨?_, ?_, ?_, ?_, ?_⟩
  · simp [fireOne, htimers]
  · simp [fireOne, htimers]
  · simp [fireOne]
  · simp [fireOne, htimers]
  · intro f hf
    simp only [fireOne] at hf
    by_cases hb : s.buffer = []
    · rw [if_pos hb] at hf
      exact h5 f hf
    · rw [if_neg hb] at hf
      rcases List.mem_append.mp hf with hmem | hnew
      · exact h5 f hmem
      · obtain ⟨t₀, i, rest, hbuf, hd3⟩ := h4 d (htimers ▸ List.mem_singleton.mpr rfl)
        simp at hnew
        subst hnew
        exact ⟨t₀, i, rest, hbuf, hd3⟩

/-- Firing all due flush tasks preserves the debounce invariant. -/
theorem groupInv_fireDue (t : Nat) {s : GroupState} (h : GroupInv s) :
    GroupInv (fireDue t s) := by
  have h1 := h.1
  unfold fireDue
  cases ht : s.timers with
  | nil => simpa [ht] using h
  | cons a rest =>
    have hrest : rest = [] := by
      rw [ht] at h1
      cases rest with
      | nil => rfl
      | cons b r => simp at h1
    subst hrest
    by_cases hat : a ≤ t
    · simpa [hat] using groupInv_fireOne (ht ▸ List.mem_singleton.mpr rfl) h
    · simpa [hat] using h

/-- Appending a message (and arming a flush when none is pending)
preserves the debounce invariant. -/
theorem groupInv_appendAndArm {s : GroupState} (t i : Nat)
    (h : GroupInv s) : GroupInv (appendAndArm s t i) := by
  obtain ⟨h1, h2, h3, h4, h5⟩ := h
  by_cases hp : s.inProc
  · have hres : appendAndArm s t i = { s with buffer := s.buffer ++ [(t, i)] } := by
      simp [appendAndArm, hp]
    rw [hres]
    refine ⟨h1, by simpa using h2, ?_, ?_, h5⟩
    · intro hnp
      exact absurd hp (by simpa using hnp)
    · intro d hd
      obtain ⟨t₀, i₀, rest, hb, hd3⟩ := h4 d hd
      exact ⟨t₀, i₀, rest ++ [(t, i)], by simp [hb], hd3⟩
  · have htms : s.timers = [] := by
      by_contra hne
      exact hp (h2.mpr hne)
    have hbuf : s.buffer = [] := h3 hp
    have hres : appendAndArm s t i =
        ⟨s.buffer ++ [(t, i)], s.timers ++ [t + 3], true, s.flushes⟩ := by
      simp [appendAndArm, hp]
    rw [hres]
    refine ⟨by simp [htms], by simp [htms], by simp, ?_, by simpa using h5⟩
    intro d hd
    simp [htms] at hd
    subst hd
    exact ⟨t, i, [], by simp [hbuf], rfl⟩

/-- One `process_media_group` call preserves the debounce invariant. -/
theorem groupInv_addMessage {s : GroupState} (t i : Nat)
    (h : GroupInv s) : GroupInv (addMessage s t i) :=
  groupInv_appendAndArm t i (groupInv_fireDue t h)

/-- Any chronological sequence of arrivals preserves the debounce
invariant. -/
theorem groupInv_addEvents (arrivals : List (Nat × Nat)) {s : GroupState}
    (h : GroupInv s) : GroupInv (addEvents s arrivals) := by
  induction arrivals generalizing s with
  | nil => exact h
  | cons p rest ih =>
    have : addEvents s (p :: rest) = addEvents (addMessage s p.1 p.2) rest := by
      simp [addEvents]
    rw [this]
    exact ih (groupInv_addMessage p.1 p.2 h)

/-- The final state of any media-group scenario satisfies the debounce
invariant. -/
theorem groupInv_runGroup (arrivals : List (Nat × Nat)) :
    GroupInv (runGroup arrivals) := by
  have h := groupInv_addEvents arrivals groupInv_init
  have h1 := h.1
  show GroupInv (List.foldl fireOne (addEvents initGroup arrivals)
    (addEvents initGroup arrivals).timers)
  set s := addEvents initGroup arrivals with hs
  cases ht : s.timers with
  | nil => simpa using h
  | cons a rest =>
    have hrest : rest = [] := by
      rw [ht] at h1
      cases rest with
      | nil => rfl
      | cons b r => simp at h1
    subst hrest
    simpa using groupInv_fireOne (ht ▸ List.mem_singleton.mpr rfl) h

/-- C4: media-group debounce.  For every chronological arrival sequence of
one group key: at most one flush task is scheduled at any time; every
flush contains the messages popped atomically at its fire time and fires
exactly 3 time-units after the first message of its burst (the timer is
not reset by later messages).  Concretely, arrivals at t = 0, 1, 2
produce exactly one flush at t = 3 holding all three messages, and a
fourth message arriving at t = 10, after that flush, opens a new,
independent group instance flushed on its own at t = 13. -/
theorem media_group_debounce (arrivals : List (Nat × Nat)) :
    (addEvents initGroup arrivals).timers.length ≤ 1 ∧
      (∀ f ∈ (runGroup arrivals).flushes,
        ∃ t₀ i rest, f.2 = (t₀, i) :: rest ∧ f.1 = t₀ + 3) ∧
      runGroup [(0, 1), (1, 2), (2, 3)] =
        ⟨[], [], false, [(3, [(0, 1), (1, 2), (2, 3)])]⟩ ∧
      runGroup [(0, 1), (1, 2), (2, 3), (10, 4)] =
        ⟨[], [], false, [(3, [(0, 1), (1, 2), (2, 3)]), (13, [(10, 4)])]⟩ := by
  refine ⟨(groupInv_addEvents arrivals groupInv_init).1,
    (groupInv_runGroup arrivals).2.2.2.2, by decide, by decide⟩

/-- C4 witness: the debounce theorem at a concrete arrival list. -/
theorem media_group_debounce_witness :
    (addEvents initGroup [(0, 5), (1, 6)]).timers.length ≤ 1 ∧
      (∀ f ∈ (runGroup [(0, 5), (1, 6)]).flushes,
        ∃ t₀ i rest, f.2 = (t₀, i) :: rest ∧ f.1 = t₀ + 3) ∧
      runGroup [(0, 1), (1, 2), (2, 3)] =
        ⟨[], [], false, [(3, [(0, 1), (1, 2), (2, 3)])]⟩ ∧
      runGroup [(0, 1), (1, 2), (2, 3), (10, 4)] =
        ⟨[], [], false, [(3, [(0, 1), (1, 2), (2, 3)]), (13, [(10, 4)])]⟩ :=
  media_group_debounce [(0, 5), (1, 6)]

/-- C5: a webhook event whose task's last comment has `create_date` equal
to the task's own `create_date` results in exactly one `open_chat` call,
zero downloads and zero chat-platform sends, with a 200 outcome: message
forwarding is skipped entirely. -/
theorem webhook_chat_open_idempotent
    (task : PyrusTask) (tok ev : String) (tid : Nat) (bot : Bool)
    (c : PyrusComment) (cs : List PyrusComment) (cd : String)
    (htok : tok ≠ "") (hev : ev ≠ "") (htid : tid ≠ 0)
    (hfields : task.fields ≠ [])
    (hcomments : task.comments = some (c :: cs))
    (hcd : task.create_date = some cd) (hcd' : cd ≠ "")
    (hlast : ((c :: cs).getLast (List.cons_ne_nil c cs)).create_date =
      some cd) :
    process_webhook bot ⟨some task, some tok, some ev, some tid⟩ =
      ⟨200, 1, 0, 0⟩ := by
  unfold process_webhook
  simp [strTruthy, htok, hev, htid, hfields, hcomments, hcd, hcd', hlast]

/-- C5 witness: a one-comment task whose comment shares the task's
creation date. -/
theorem webhook_chat_open_idempotent_witness :
    process_webhook true
      ⟨some ⟨some "d", [⟨some 1, some "x"⟩],
        some [⟨some "d", some "telegram", none, none⟩]⟩,
        some "tok", some "comment", some 7⟩ = ⟨200, 1, 0, 0⟩ :=
  webhook_chat_open_idempotent _ _ _ 7 true
    ⟨some "d", some "telegram", none, none⟩ [] "d"
    (by decide) (by decide) (by decide) (by simp) rfl rfl (by decide) rfl

/-- C10: in webhook processing of an event that reaches the forwarding
path, when the `tg_id` field is missing from the task fields (or holds no
value), or its value is falsy, or its value cannot be converted to an
integer by `int(str(v).strip())`, the event is acknowledged with a 200
outcome and nothing is sent to the chat platform (and no chat-open comment
is issued either): the event is consumed silently. -/
theorem webhook_missing_chat_id_consumed
    (task : PyrusTask) (tok ev : String) (tid : Nat)
    (c : PyrusComment) (cs : List PyrusComment) (cd : String)
    (htok : tok ≠ "") (hev : ev ≠ "") (htid : tid ≠ 0)
    (hfields : task.fields ≠ [])
    (hcomments : task.comments = some (c :: cs))
    (hcd : task.create_date = some cd) (hcd' : cd ≠ "")
    (hlast : ((c :: cs).getLast (List.cons_ne_nil c cs)).create_date ≠
      some cd)
    (hchan : ((c :: cs).getLast (List.cons_ne_nil c cs)).channelType =
      some "telegram")
    (hchat : find_value task.fields REQUEST_FORM_FIELDS_tg_id = none ∨
      ∃ v, find_value task.fields REQUEST_FORM_FIELDS_tg_id = some v ∧
        (v = "" ∨ pyToInt v = none)) :
    (process_webhook true ⟨some task, some tok, some ev, some tid⟩).status
        = 200 ∧
      (process_webhook true
        ⟨some task, some tok, some ev, some tid⟩).telegramSends = 0 ∧
      (process_webhook true
        ⟨some task, some tok, some ev, some tid⟩).openChatCalls = 0 := by
  have hlast' : (((c :: cs).getLast (List.cons_ne_nil c cs)).create_date ==
      some cd) = false := by
    simp [hlast]
  unfold process_webhook
  rcases hchat with h | ⟨v, hv, hv'⟩
  · simp [strTruthy, htok, hev, htid, hfields, hcomments, hcd, hcd',
      hlast', hchan, h]
  · rcases hv' with rfl | hnone
    · simp [strTruthy, htok, hev, htid, hfields, hcomments, hcd, hcd',
        hlast', hchan, hv]
    · by_cases hv0 : v = "" <;>
        simp [strTruthy, htok, hev, htid, hfields, hcomments, hcd, hcd',
          hlast', hchan, hv, hnone, hv0]

/-- C10 witness: a forwardable event whose task has no `tg_id` field. -/
theorem webhook_missing_chat_id_consumed_witness :
    (process_webhook true
        ⟨some ⟨some "d", [⟨some 1, some "x"⟩],
          some [⟨some "e", some "telegram", none, none⟩]⟩,
          some "tok", some "comment", some 7⟩).status = 200 ∧
      (process_webhook true
        ⟨some ⟨some "d", [⟨some 1, some "x"⟩],
          some [⟨some "e", some "telegram", none, none⟩]⟩,
          some "tok", some "comment", some 7⟩).telegramSends = 0 ∧
      (process_webhook true
        ⟨some ⟨some "d", [⟨some 1, some "x"⟩],
          some [⟨some "e", some "telegram", none, none⟩]⟩,
          some "tok", some "comment", some 7⟩).openChatCalls = 0 :=
  webhook_missing_chat_id_consumed _ _ _ 7
    ⟨some "e", some "telegram", none, none⟩ [] "d"
    (by decide) (by decide) (by decide) (by simp) rfl rfl (by decide)
    (by decide) rfl (Or.inl rfl)

/-- C9 witness: concrete instances of the `build_payload` theorem. -/
theorem build_payload_channel_and_text_witness :
    (build_payload none (some ["g"])).channelType = "telegram" ∧
      (build_payload none (some ["g"])).text ≠ "" ∧
      ((none = (none : Option String) ∨ (none : Option String) = some "") →
        (build_payload none (some ["g"])).text = "...") :=
  build_payload_channel_and_text none (some ["g"])

end StarSmile
